import Mathlib

/-!
Verification of the Technical Indicator & Backtesting Engine of the LIU-Trade
repository (backend/app/services: technical.py, signal_generator.py,
risk_manager.py, backtester.py).

Modelling conventions:
* Python floats are modelled as exact rationals (ℚ); decimal literals such as
  0.05 become the decimal rational 5/100.
* `datetime.date` values are modelled as integer day numbers (ℤ); `timedelta`
  addition and `.days` subtraction become integer addition and subtraction.
* pandas Series of prices are modelled as `List ℚ`; "NaN / not yet computable"
  entries are modelled with `Option ℚ` at the points where the code reads them.
* Python `round(x, n)` (round half to even on the exact value) is `roundTo n`.
* Python `int(x)` (truncation toward zero) is `pyInt`.
* Python truthiness of an optional float (`if x:`) is `truthy`.
-/

set_option autoImplicit false

namespace LiuTrade

/-- Round half to even to an integer, the behaviour of Python `round` on an
exactly represented value. -/
def roundHalfEven (q : ℚ) : ℤ :=
  let f : ℤ := ⌊q⌋
  let r : ℚ := q - f
  if r < 1/2 then f
  else if 1/2 < r then f + 1
  else if f % 2 = 0 then f else f + 1

/-- Python `round(q, dp)`. -/
def roundTo (dp : ℕ) (q : ℚ) : ℚ :=
  (roundHalfEven (q * (10 : ℚ) ^ dp) : ℚ) / (10 : ℚ) ^ dp

/-- Python `round(q, 2)`, ubiquitous in the engine. -/
def round2 (q : ℚ) : ℚ := roundTo 2 q

/-- Python `int(q)`: truncation toward zero. -/
def pyInt (q : ℚ) : ℤ := if q < 0 then ⌈q⌉ else ⌊q⌋

/-- Python truthiness of an optional float: `None` and `0.0` are falsy. -/
def truthy : Option ℚ → Bool
  | none => false
  | some q => decide (q ≠ 0)

/-- `xs.tail(k)` in pandas / `xs[-k:]` in Python: the last `min k xs.length`
elements. -/
def lastN {α : Type} (k : ℕ) (xs : List α) : List α := xs.drop (xs.length - k)

def listSum (xs : List ℚ) : ℚ := xs.foldl (· + ·) 0

/-- Arithmetic mean (`Series.mean` / `np.mean`); 0 on the empty list (never
read at an empty list by the guarded call sites). -/
def listMean (xs : List ℚ) : ℚ := listSum xs / xs.length

def listMin : List ℚ → ℚ
  | [] => 0
  | h :: t => t.foldl min h

def listMax : List ℚ → ℚ
  | [] => 0
  | h :: t => t.foldl max h

/-- Resolve a (possibly negative) Python slice endpoint against length `n`. -/
def pyResolve (n : ℕ) (i : ℤ) : ℕ :=
  if i < 0 then ((n : ℤ) + i).toNat else min i.toNat n

/-- Python slice `xs[a:b]` with signed endpoints. -/
def pySlice {α : Type} (xs : List α) (a b : ℤ) : List α :=
  let lo := pyResolve xs.length a
  let hi := pyResolve xs.length b
  (xs.drop lo).take (hi - lo)

/-- One daily price bar ({date, open, high, low, close, volume}); the `open`
field is renamed `openPrice` because `open` is a Lean keyword. -/
structure Bar where
  date : ℤ
  openPrice : ℚ
  high : ℚ
  low : ℚ
  close : ℚ
  volume : ℚ
  deriving DecidableEq, Repr

def dummyBar : Bar := ⟨0, 0, 0, 0, 0, 0⟩

/-! ### risk_manager.py -/

/-- `PositionSizeResult` of risk_manager.py. -/
structure PositionSizeResult where
  shares : ℤ
  risk_amount : ℚ
  total_cost : ℚ
  deriving DecidableEq, Repr

/-- `calculate_position_size` of risk_manager.py (default
`risk_per_trade=0.02` made explicit at call sites). -/
def calculate_position_size (account_value entry_price stop_loss : ℚ)
    (risk_per_trade : ℚ) : PositionSizeResult :=
  let risk_amount := account_value * risk_per_trade
  let risk_per_share := |entry_price - stop_loss|
  if risk_per_share ≤ 0 then ⟨0, 0, 0⟩
  else
    let shares := pyInt (risk_amount / risk_per_share)
    let total_cost := (shares : ℚ) * entry_price
    ⟨shares, round2 risk_amount, round2 total_cost⟩

/-! ### technical.py — indicator engine (last-value views)

`calc_sma(close, p)` / `calc_ema(close, p)` build whole pandas Series, but the
detectors and the signal generator only read single entries; the embedding
provides those entries directly (`none` models NaN). -/

/-- Last entry of `calc_sma(closes, period)`: NaN until `period` observations
exist, then the mean of the last `period` closes. -/
def smaLast (closes : List ℚ) (period : ℕ) : Option ℚ :=
  if closes.length < period then none else some (listMean (lastN period closes))

/-- Entry `i` of `calc_sma(closes, period)`. -/
def smaAt (closes : List ℚ) (period : ℕ) (i : ℕ) : Option ℚ :=
  if i < closes.length ∧ period ≤ i + 1 then
    some (listMean (lastN period (closes.take (i + 1))))
  else none

/-- Last entry of `calc_ema(closes, span)` (`ewm(span, adjust=False)`):
seeded with the first close, smoothing factor 2/(span+1). -/
def emaLast (closes : List ℚ) (span : ℕ) : Option ℚ :=
  match closes with
  | [] => none
  | c :: t =>
    let a : ℚ := 2 / ((span : ℚ) + 1)
    some (t.foldl (fun acc x => a * x + (1 - a) * acc) c)

/-- `MATurnPrediction` schema (pydantic defaults preserved). -/
structure MATurnPrediction where
  period : ℕ
  will_turn_up : Bool
  required_price : Option ℚ := none
  turn_date_start : Option ℤ := none
  turn_date_end : Option ℤ := none
  confidence : ℚ := 0
  deriving DecidableEq, Repr

/-- `predict_ma_turn(df, period, future_days=20)` of technical.py.  The
deduction window is the Python slice `close.iloc[-period : -period+future_days]`
(signed endpoints, hence `pySlice`); `dates.index` is the default RangeIndex
`0..n-1` of the frame, so `deduction_dates.index[0]` is the resolved slice
start.  `current_ma` is computed by the source but never used. -/
def predictMaTurn (df : List Bar) (period : ℕ) (future_days : ℕ := 20) :
    MATurnPrediction :=
  let close := df.map Bar.close
  let dates := df.map Bar.date
  let n := close.length
  if n < period + future_days then { period := period, will_turn_up := false }
  else
    let last_price := close.getLast?.getD 0
    let last_date := dates.getLast?.getD 0
    let deduction_prices := pySlice close (-(period : ℤ)) (-(period : ℤ) + future_days)
    if deduction_prices = [] then { period := period, will_turn_up := false }
    else
      let min_deduction := listMin deduction_prices
      let will_turn := decide (min_deduction < last_price)
      let required_price := min_deduction
      let lo := pyResolve n (-(period : ℤ))
      let k := deduction_prices.length
      let offset_start : ℤ := (n : ℤ) - 1 - lo
      let offset_end : ℤ := (n : ℤ) - 1 - (lo + k - 1)
      let turn_start := if will_turn then some (last_date + max 0 offset_end) else none
      let turn_end := if will_turn then some (last_date + max 0 offset_start) else none
      let confidence : ℚ :=
        if required_price ≠ 0 ∧ required_price < last_price then
          min 1 ((last_price - required_price) / required_price * 5)
        else 0
      { period := period
        will_turn_up := will_turn
        required_price := if required_price ≠ 0 then some (round2 required_price) else none
        turn_date_start := turn_start
        turn_date_end := turn_end
        confidence := round2 confidence }

/-- `TwoBSignal` schema. -/
structure TwoBSignal where
  point_a_date : ℤ
  point_a_price : ℚ
  point_b_date : ℤ
  point_b_price : ℚ
  recovery_price : ℚ
  is_substantive : Bool
  deduction_validated : Bool
  deriving DecidableEq, Repr

/-- Position of the first occurrence of the minimum (`Series.idxmin` resolved
back to a position via `index.get_loc`). -/
def firstMinPos (l : List ℚ) : ℕ := l.indexOf (listMin l)

/-- `detect_2b(df)` of technical.py. -/
def detect2b (df : List Bar) : Option TwoBSignal :=
  if df.length < 30 then none
  else
    let close := df.map Bar.close
    let dates := df.map Bar.date
    let lookback := min 60 (df.length - 1)
    let recent := lastN lookback close
    let recent_dates := lastN lookback dates
    let min_pos := firstMinPos recent
    if min_pos < 5 ∨ lookback - 3 < min_pos then none
    else
      let pre_min := recent.take min_pos
      if pre_min = [] then none
      else
        let local_lows := (List.range pre_min.length).filter fun i =>
          decide (2 ≤ i) && decide (i + 2 < pre_min.length) &&
          decide (pre_min.getD i 0 < pre_min.getD (i - 1) 0) &&
          decide (pre_min.getD i 0 < pre_min.getD (i - 2) 0) &&
          decide (pre_min.getD i 0 < pre_min.getD (i + 1) 0) &&
          decide (pre_min.getD i 0 < pre_min.getD (i + 2) 0)
        match local_lows.getLast? with
        | none => none
        | some point_a_pos =>
          let point_a_price := pre_min.getD point_a_pos 0
          let point_b_price := recent.getD min_pos 0
          if point_a_price ≤ point_b_price then none
          else
            let post_b := recent.drop (min_pos + 1)
            if post_b = [] then none
            else
              let recovered := post_b.filter fun x => decide (point_a_price < x)
              if recovered.length = 0 then none
              else
                let recovery_price := recovered.headD 0
                let deduction_validated :=
                  decide (21 ≤ close.length) &&
                  decide (close.getD (close.length - 21) 0 < close.getLast?.getD 0)
                some { point_a_date := recent_dates.getD point_a_pos 0
                       point_a_price := round2 point_a_price
                       point_b_date := recent_dates.getD min_pos 0
                       point_b_price := round2 point_b_price
                       recovery_price := round2 recovery_price
                       is_substantive := decide (2 ≤ recovered.length)
                       deduction_validated := deduction_validated }

/-- `MAConcentration` schema. -/
structure MAConcentration where
  level : String
  price_range_low : ℚ
  price_range_high : ℚ
  spread_ratio : ℚ
  timeframe : String
  breakout_detected : Bool
  volume_confirmed : Bool
  deriving DecidableEq, Repr

/-- `detect_ma_concentration(df, timeframe="daily")` of technical.py. -/
def detectMaConcentration (df : List Bar) (timeframe : String := "daily") :
    Option MAConcentration :=
  if df.length < 120 then none
  else
    let close := df.map Bar.close
    match smaLast close 20, smaLast close 60, emaLast close 120 with
    | some last_ma20, some last_ma60, some last_ema120 =>
      let values := [last_ma20, last_ma60, last_ema120]
      let spread := listMax values - listMin values
      let avg := listMean values
      let spread_ratio := if 0 < avg then spread / avg else 999
      if 5/100 < spread_ratio then none
      else
        let level := if spread_ratio < 2/100 then "full" else "partial"
        let last_close := close.getLast?.getD 0
        let breakout := decide (listMax values * (101/100) < last_close)
        let vols := df.map Bar.volume
        let recent_vol := listMean (lastN 5 vols)
        let avg_vol := listMean (lastN 60 vols)
        let volume_confirmed :=
          if 0 < avg_vol then decide (avg_vol * (3/2) < recent_vol) else false
        some { level := level
               price_range_low := round2 (listMin values)
               price_range_high := round2 (listMax values)
               spread_ratio := roundTo 4 spread_ratio
               timeframe := timeframe
               breakout_detected := breakout
               volume_confirmed := volume_confirmed }
    | _, _, _ => none

/-! ### signal_generator.py -/

/-- `BuySignalResponse` schema.  The `reasoning` field (a human-readable
formatted message assembled with f-strings) is presentation-only and is
omitted from the model. -/
structure BuySignalResponse where
  signal_type : String
  position_advice : String
  entry_price : ℚ
  stop_loss : ℚ
  target_price : ℚ
  risk_reward_ratio : ℚ
  deriving DecidableEq, Repr

/-- The 2B branch of `scan_buy_signals` (lines 29–49): at most one signal.
`last_ma60` keeps its Python truthiness (`None` and `0.0` both select the
1.15× fallback target). -/
def twoBBlock (df : List Bar) (last_price : ℚ) (last_ma60 : Option ℚ) :
    List BuySignalResponse :=
  match detect2b df with
  | none => []
  | some two_b =>
    if two_b.is_substantive then
      let stop_loss := round2 (two_b.point_b_price * (98/100))
      let target :=
        if truthy last_ma60 then round2 (last_ma60.getD 0)
        else round2 (last_price * (115/100))
      let risk := last_price - stop_loss
      let reward := target - last_price
      let rr := if 0 < risk then round2 (reward / risk) else 0
      if 2 ≤ rr ∧ risk / last_price < 1/10 then
        [{ signal_type := "2B_STRUCTURE"
           position_advice := "PROBE"
           entry_price := round2 last_price
           stop_loss := stop_loss
           target_price := target
           risk_reward_ratio := rr }]
      else []
    else []

/-- The MA-concentration branch of `scan_buy_signals` (lines 51–71). -/
def concBlock (df : List Bar) (last_price : ℚ) : List BuySignalResponse :=
  match detectMaConcentration df "daily" with
  | none => []
  | some c =>
    if c.breakout_detected && c.volume_confirmed then
      let stop_loss := round2 (c.price_range_low * (98/100))
      let target := round2 (last_price * (120/100))
      let risk := last_price - stop_loss
      let reward := target - last_price
      let rr := if 0 < risk then round2 (reward / risk) else 0
      if 2 ≤ rr then
        [{ signal_type := "MA_CONCENTRATION_BREAKOUT"
           position_advice := "CONFIRM"
           entry_price := round2 last_price
           stop_loss := stop_loss
           target_price := target
           risk_reward_ratio := rr }]
      else []
    else []

/-- The MA-turn branch of `scan_buy_signals` (lines 73–93). -/
def turnBlock (df : List Bar) (last_price : ℚ) (last_ma60 : Option ℚ) :
    List BuySignalResponse :=
  let ma20_turn := predictMaTurn df 20 20
  if ma20_turn.will_turn_up && decide ((1:ℚ)/2 < ma20_turn.confidence) then
    let stop_loss := round2 (last_price * (95/100))
    let target :=
      if truthy last_ma60 && decide (last_price < last_ma60.getD 0) then
        round2 (last_ma60.getD 0)
      else round2 (last_price * (112/100))
    let risk := last_price - stop_loss
    let reward := target - last_price
    let rr := if 0 < risk then round2 (reward / risk) else 0
    if 2 ≤ rr then
      [{ signal_type := "MA_TURN_UP"
         position_advice := "PROBE"
         entry_price := round2 last_price
         stop_loss := stop_loss
         target_price := target
         risk_reward_ratio := rr }]
    else []
  else []

set_option linter.unusedVariables false in
/-- `scan_buy_signals(df, symbol)` of signal_generator.py: the three signal
branches append in source order (2B, concentration, MA turn).  `symbol` is
never read by the branch bodies; `ma20` and `ema120` are computed by the
source but unused. -/
def scanBuySignals (df : List Bar) (symbol : String) : List BuySignalResponse :=
  if df.isEmpty || df.length < 120 then []
  else
    let close := df.map Bar.close
    let last_price := close.getLast?.getD 0
    let last_ma60 := smaLast close 60
    twoBBlock df last_price last_ma60 ++ concBlock df last_price ++
      turnBlock df last_price last_ma60

/-! ### backtester.py -/

inductive ExitReason where
  | STOP_LOSS
  | TARGET_HIT
  | TRAILING_STOP
  | TIME_EXIT
  | END_OF_DATA
  deriving DecidableEq, Repr

structure SimulatedTrade where
  symbol : String
  signal_type : String
  entry_date : ℤ
  entry_price : ℚ
  exit_date : ℤ
  exit_price : ℚ
  exit_reason : ExitReason
  shares : ℤ
  stop_loss : ℚ
  target_price : ℚ
  pnl : ℚ
  pnl_pct : ℚ
  holding_days : ℤ
  deriving DecidableEq, Repr

structure BacktestConfig where
  initial_capital : ℚ := 100000
  risk_per_trade : ℚ := 2/100
  max_holding_days : ℤ := 60
  trailing_stop_pct : Option ℚ := none
  signal_types : Option (List String) := none
  cooldown_days : ℤ := 15
  trend_filter : Bool := false
  stop_loss_atr_mult : Option ℚ := some 2
  deriving DecidableEq, Repr

structure SignalTypeStats where
  signal_type : String
  trade_count : ℕ := 0
  win_count : ℕ := 0
  total_pnl : ℚ := 0
  gross_profit : ℚ := 0
  gross_loss : ℚ := 0
  avg_win_pct : ℚ := 0
  avg_loss_pct : ℚ := 0
  deriving DecidableEq, Repr

/-- `BacktestStats`; `profit_factor = none` models `float("inf")`. -/
structure BacktestStats where
  total_return : ℚ := 0
  total_return_pct : ℚ := 0
  total_pnl : ℚ := 0
  trade_count : ℕ := 0
  win_count : ℕ := 0
  win_rate : ℚ := 0
  avg_win : ℚ := 0
  avg_loss : ℚ := 0
  avg_win_pct : ℚ := 0
  avg_loss_pct : ℚ := 0
  profit_factor : Option ℚ := some 0
  max_drawdown : ℚ := 0
  max_drawdown_pct : ℚ := 0
  sharpe_ratio : ℚ := 0
  by_signal_type : List (String × SignalTypeStats) := []
  deriving DecidableEq, Repr

structure EquityPoint where
  date : ℤ
  equity : ℚ
  deriving DecidableEq, Repr

structure BacktestResult where
  symbol : String
  config : BacktestConfig
  stats : BacktestStats
  trades : List SimulatedTrade
  equity_curve : List EquityPoint
  deriving DecidableEq, Repr

structure OpenPosition where
  signal_type : String
  entry_date : ℤ
  entry_price : ℚ
  shares : ℤ
  stop_loss : ℚ
  target_price : ℚ
  trailing_stop : Option ℚ
  highest_since_entry : ℚ
  deriving DecidableEq, Repr

/-- `Backtester._close`. -/
def closeTrade (pos : OpenPosition) (exit_date : ℤ) (exit_price : ℚ)
    (reason : ExitReason) (symbol : String) (holding : ℤ) : SimulatedTrade :=
  let pnl := (pos.shares : ℚ) * (exit_price - pos.entry_price)
  let pnl_pct :=
    if pos.entry_price ≠ 0 then (exit_price - pos.entry_price) / pos.entry_price
    else 0
  { symbol := symbol
    signal_type := pos.signal_type
    entry_date := pos.entry_date
    entry_price := pos.entry_price
    exit_date := exit_date
    exit_price := round2 exit_price
    exit_reason := reason
    shares := pos.shares
    stop_loss := pos.stop_loss
    target_price := pos.target_price
    pnl := round2 pnl
    pnl_pct := round2 (pnl_pct * 100)
    holding_days := holding }

/-- `Backtester._check_exit`: the fixed-priority exit ladder. -/
def checkExit (cfg : BacktestConfig) (pos : OpenPosition) (bar : Bar)
    (bar_date : ℤ) (symbol : String) : Option SimulatedTrade :=
  let holding := bar_date - pos.entry_date
  let trailHit :=
    match pos.trailing_stop with
    | some ts => decide (bar.low ≤ ts)
    | none => false
  if bar.low ≤ pos.stop_loss then
    some (closeTrade pos bar_date pos.stop_loss ExitReason.STOP_LOSS symbol holding)
  else if trailHit then
    some (closeTrade pos bar_date (pos.trailing_stop.getD 0)
      ExitReason.TRAILING_STOP symbol holding)
  else if pos.target_price ≤ bar.high then
    some (closeTrade pos bar_date pos.target_price ExitReason.TARGET_HIT symbol holding)
  else if cfg.max_holding_days ≤ holding then
    some (closeTrade pos bar_date bar.close ExitReason.TIME_EXIT symbol holding)
  else none

/-- True-range list of a bar window: `TR_j = max(high_j − low_j,
|high_j − close_{j-1}|, |low_j − close_{j-1}|)` for `j = 1 .. len−1`, exactly
the loop at backtester.py lines 276–280. -/
def trueRangeList (bars : List Bar) : List ℚ :=
  List.zipWith
    (fun cur prev =>
      max (cur.high - cur.low) (max |cur.high - prev.close| |cur.low - prev.close|))
    (bars.drop 1) bars

/-- The ATR-based stop recomputation of `Backtester._try_entry`
(lines 272–284): true ranges over the 14-bar tail of the entry window, falling
back to the signal's own stop when no true range exists. -/
def atrStopLoss (window : List Bar) (entry_price mult sigStop : ℚ) : ℚ :=
  let tr_vals := trueRangeList (lastN 14 window)
  if tr_vals = [] then sigStop
  else
    let atr := listSum tr_vals / tr_vals.length
    round2 (entry_price - atr * mult)

/-- Body of `Backtester._try_entry` once the window `df.iloc[:idx+1]` and the
entry date `df.iloc[idx]["date"]` have been taken. -/
def tryEntryAux (cfg : BacktestConfig) (window : List Bar) (entry_date : ℤ)
    (symbol : String) (capital : ℚ) : Option OpenPosition :=
  let trendReject : Bool :=
    if cfg.trend_filter then
      let close := window.map Bar.close
      let n := close.length
      if 10 ≤ n then
        match smaAt close 60 (n - 1), smaAt close 60 (n - 10) with
        | some nowv, some prevv => decide (nowv < prevv)
        | _, _ => false
      else false
    else false
  if trendReject then none
  else
    let signals := scanBuySignals window symbol
    let signals :=
      match cfg.signal_types with
      | some types =>
        if types ≠ [] then
          signals.filter (fun (s : BuySignalResponse) => types.contains s.signal_type)
        else signals
      | none => signals
    match signals with
    | [] => none
    | sig :: _ =>
      let stop_loss :=
        if truthy cfg.stop_loss_atr_mult then
          atrStopLoss window sig.entry_price (cfg.stop_loss_atr_mult.getD 0) sig.stop_loss
        else sig.stop_loss
      let pos_result :=
        calculate_position_size capital sig.entry_price stop_loss cfg.risk_per_trade
      if pos_result.shares ≤ 0 ∨ capital < pos_result.total_cost then none
      else
        let trailing :=
          if truthy cfg.trailing_stop_pct then
            some (sig.entry_price * (1 - cfg.trailing_stop_pct.getD 0))
          else none
        some { signal_type := sig.signal_type
               entry_date := entry_date
               entry_price := sig.entry_price
               shares := pos_result.shares
               stop_loss := stop_loss
               target_price := sig.target_price
               trailing_stop := trailing
               highest_since_entry := sig.entry_price }

/-- `Backtester._try_entry(df, idx, symbol, capital)`: evaluates only the
prefix `df.iloc[:idx+1]` of the history. -/
def tryEntry (cfg : BacktestConfig) (df : List Bar) (idx : ℕ) (symbol : String)
    (capital : ℚ) : Option OpenPosition :=
  tryEntryAux cfg (df.take (idx + 1)) (df.getD idx dummyBar).date symbol capital

/-- One step of the `_max_drawdown` loop, on state
(running peak, max drawdown, drawdown pct at that max). -/
def mddStep (st : ℚ × ℚ × ℚ) (e : ℚ) : ℚ × ℚ × ℚ :=
  let peak := if st.1 < e then e else st.1
  let dd := peak - e
  let dd_pct := if 0 < peak then dd / peak else 0
  if st.2.1 < dd then (peak, dd, dd_pct) else (peak, st.2.1, st.2.2)

/-- `Backtester._max_drawdown(curve)`: peak seeded with the first equity,
returns (max drawdown, drawdown percentage ×100 at the worst point). -/
def maxDrawdown (curve : List EquityPoint) : ℚ × ℚ :=
  match curve with
  | [] => (0, 0)
  | c0 :: _ =>
    let st := (curve.map EquityPoint.equity).foldl mddStep (c0.equity, 0, 0)
    (st.2.1, st.2.2 * 100)

/-- Specification-side view of the drawdown scan: for each equity value, the
pair (drawdown against the running peak, that drawdown as a fraction of the
peak), with the peak threaded exactly as the loop threads it. -/
def ddAnnots : ℚ → List ℚ → List (ℚ × ℚ)
  | _, [] => []
  | peak, e :: t =>
    let p := if peak < e then e else peak
    let dd := p - e
    (dd, if 0 < p then dd / p else 0) :: ddAnnots p t

/-- `Backtester._sharpe_ratio(curve, risk_free_annual=0.04)`.  The floating
`math.sqrt` has no exact rational counterpart; it is modelled by the rational
square-root approximation `Rat.sqrt` (deterministic, so irrelevant to every
claim below, none of which inspects the Sharpe value). -/
def sharpeRatio (curve : List EquityPoint) (risk_free_annual : ℚ := 4/100) : ℚ :=
  if curve.length < 2 then 0
  else
    let eq := curve.map EquityPoint.equity
    let daily_returns := (List.zip (eq.drop 1) eq).filterMap fun pc =>
      if 0 < pc.2 then some ((pc.1 - pc.2) / pc.2) else none
    if daily_returns = [] then 0
    else
      let mean_r := listMean daily_returns
      let var := listSum (daily_returns.map (fun r => (r - mean_r) ^ 2)) /
        daily_returns.length
      let std_r := Rat.sqrt var
      if std_r = 0 then 0
      else
        let daily_rf := risk_free_annual / 252
        (mean_r - daily_rf) / std_r * Rat.sqrt 252

/-- Per-trade update of a `SignalTypeStats` entry (first loop of the
by-signal-type aggregation). -/
def signalTypeStep (t : SimulatedTrade) (st : SignalTypeStats) : SignalTypeStats :=
  let st := { st with trade_count := st.trade_count + 1, total_pnl := st.total_pnl + t.pnl }
  if 0 < t.pnl then
    { st with win_count := st.win_count + 1, gross_profit := st.gross_profit + t.pnl }
  else
    { st with gross_loss := st.gross_loss + |t.pnl| }

/-- `dict.setdefault(key, default)` followed by an in-place update, on an
insertion-ordered association list. -/
def updateAssoc (l : List (String × SignalTypeStats)) (key : String)
    (f : SignalTypeStats → SignalTypeStats) : List (String × SignalTypeStats) :=
  match l with
  | [] => [(key, f { signal_type := key })]
  | (k, v) :: rest =>
    if k = key then (k, f v) :: rest else (k, v) :: updateAssoc rest key f

/-- `Backtester._compute_stats(trades, equity_curve)`. -/
def computeStats (cfg : BacktestConfig) (trades : List SimulatedTrade)
    (equity_curve : List EquityPoint) : BacktestStats :=
  if trades = [] then {}
  else
    let wins := trades.filter fun t => decide (0 < t.pnl)
    let losses := trades.filter fun t => decide (t.pnl ≤ 0)
    let gross_profit := listSum (wins.map SimulatedTrade.pnl)
    let gross_loss := |listSum (losses.map SimulatedTrade.pnl)|
    let total_pnl := listSum (trades.map SimulatedTrade.pnl)
    let avg_win := if wins ≠ [] then gross_profit / wins.length else 0
    let avg_loss := if losses ≠ [] then gross_loss / losses.length else 0
    let avg_win_pct :=
      if wins ≠ [] then listSum (wins.map SimulatedTrade.pnl_pct) / wins.length else 0
    let avg_loss_pct :=
      if losses ≠ [] then |listSum (losses.map SimulatedTrade.pnl_pct) / losses.length|
      else 0
    let mdd := maxDrawdown equity_curve
    let sharpe := sharpeRatio equity_curve (4/100)
    let by0 := trades.foldl (fun acc t => updateAssoc acc t.signal_type (signalTypeStep t)) []
    let byT := by0.map fun kv =>
      let type_wins := trades.filter fun t =>
        decide (t.signal_type = kv.1) && decide (0 < t.pnl)
      let type_losses := trades.filter fun t =>
        decide (t.signal_type = kv.1) && decide (t.pnl ≤ 0)
      (kv.1,
        { kv.2 with
          avg_win_pct :=
            if type_wins ≠ [] then
              listSum (type_wins.map SimulatedTrade.pnl_pct) / type_wins.length
            else 0
          avg_loss_pct :=
            if type_losses ≠ [] then
              |listSum (type_losses.map SimulatedTrade.pnl_pct) / type_losses.length|
            else 0 })
    { total_return := round2 total_pnl
      total_return_pct := round2 (total_pnl / cfg.initial_capital * 100)
      total_pnl := round2 total_pnl
      trade_count := trades.length
      win_count := wins.length
      win_rate := round2 ((wins.length : ℚ) / trades.length * 100)
      avg_win := round2 avg_win
      avg_loss := round2 avg_loss
      avg_win_pct := round2 avg_win_pct
      avg_loss_pct := round2 avg_loss_pct
      profit_factor := if 0 < gross_loss then some (round2 (gross_profit / gross_loss)) else none
      max_drawdown := round2 mdd.1
      max_drawdown_pct := round2 mdd.2
      sharpe_ratio := round2 sharpe
      by_signal_type := byT }

/-- Mutable loop state of `Backtester.run`. -/
structure RunState where
  capital : ℚ
  position : Option OpenPosition
  trades : List SimulatedTrade
  equity_curve : List EquityPoint
  cooldown_until : Option ℤ
  deriving DecidableEq, Repr

/-- One iteration of the `for i in range(start_idx, len(df))` loop of
`Backtester.run`: exit handling / trailing-stop ratchet, then the entry
attempt (cooldown permitting), then the equity mark. -/
def processBar (cfg : BacktestConfig) (df : List Bar) (symbol : String)
    (st : RunState) (i : ℕ) : RunState :=
  let bar := df.getD i dummyBar
  let bar_date := bar.date
  let st1 : RunState :=
    match st.position with
    | none => st
    | some pos =>
      match checkExit cfg pos bar bar_date symbol with
      | some trade =>
        let cooldown :=
          if trade.exit_reason = ExitReason.STOP_LOSS ∧ 0 < cfg.cooldown_days then
            some (bar_date + cfg.cooldown_days)
          else st.cooldown_until
        { st with
          capital := st.capital + trade.pnl
          trades := st.trades ++ [trade]
          cooldown_until := cooldown
          position := none }
      | none =>
        let hse := if pos.highest_since_entry < bar.high then bar.high
          else pos.highest_since_entry
        let pos1 := { pos with highest_since_entry := hse }
        let pos2 :=
          if truthy cfg.trailing_stop_pct then
            match pos1.trailing_stop with
            | some ts =>
              let new_trail := pos1.highest_since_entry * (1 - cfg.trailing_stop_pct.getD 0)
              if ts < new_trail then { pos1 with trailing_stop := some new_trail } else pos1
            | none => pos1
          else pos1
        { st with position := some pos2 }
  let st2 : RunState :=
    match st1.position with
    | some _ => st1
    | none =>
      match st1.cooldown_until with
      | some cu =>
        if bar_date < cu then st1
        else { st1 with cooldown_until := none
                        position := tryEntry cfg df i symbol st1.capital }
      | none =>
        { st1 with cooldown_until := none
                   position := tryEntry cfg df i symbol st1.capital }
  let mark := bar.close
  let unrealized :=
    match st2.position with
    | some p => (p.shares : ℚ) * (mark - p.entry_price)
    | none => 0
  { st2 with
    equity_curve := st2.equity_curve ++ [{ date := bar_date, equity := st2.capital + unrealized }] }

/-- `Backtester.run(df, symbol)`: requires 120 bars of history, iterates from
index 120, force-closes any open position at end of data (reason END_OF_DATA,
exit price not rounded by the source in this branch), then computes stats. -/
def Backtester.run (cfg : BacktestConfig) (df : List Bar) (symbol : String) :
    BacktestResult :=
  if df.isEmpty || df.length < 120 then
    { symbol := symbol, config := cfg, stats := {}, trades := [], equity_curve := [] }
  else
    let st0 : RunState := ⟨cfg.initial_capital, none, [], [], none⟩
    let stF := (List.range' 120 (df.length - 120)).foldl (processBar cfg df symbol) st0
    let fin : ℚ × List SimulatedTrade :=
      match stF.position with
      | none => (stF.capital, stF.trades)
      | some pos =>
        let last_bar := df.getLast?.getD dummyBar
        let last_date := last_bar.date
        let holding := last_date - pos.entry_date
        let exit_price := last_bar.close
        let pnl := (pos.shares : ℚ) * (exit_price - pos.entry_price)
        let pnl_pct :=
          if pos.entry_price ≠ 0 then (exit_price - pos.entry_price) / pos.entry_price
          else 0
        let trade : SimulatedTrade :=
          { symbol := symbol
            signal_type := pos.signal_type
            entry_date := pos.entry_date
            entry_price := pos.entry_price
            exit_date := last_date
            exit_price := exit_price
            exit_reason := ExitReason.END_OF_DATA
            shares := pos.shares
            stop_loss := pos.stop_loss
            target_price := pos.target_price
            pnl := round2 pnl
            pnl_pct := round2 (pnl_pct * 100)
            holding_days := holding }
        (stF.capital + pnl, stF.trades ++ [trade])
    { symbol := symbol
      config := cfg
      stats := computeStats cfg fin.2 stF.equity_curve
      trades := fin.2
      equity_curve := stF.equity_curve }

/-! ### Concrete inputs used by the witnesses and counterexamples -/

/-- 40 bars with strictly increasing closes 1..40. -/
def C1df : List Bar := (List.range 40).map fun (i : ℕ) =>
  { date := (i : ℤ), openPrice := ((i : ℚ) + 1), high := ((i : ℚ) + 1),
    low := ((i : ℚ) + 1), close := ((i : ℚ) + 1), volume := 1000 }

/-- Close prices of a 120-bar sequence whose last 60 bars form a 2B structure
with a prior swing low of 100 (position 70), a global minimum of 90
(position 117) and exactly one post-minimum close above 100 — a detected but
non-substantive 2B. -/
def wClose (i : ℕ) : ℚ :=
  if i < 68 then 110
  else if i = 68 then 102
  else if i = 69 then 101
  else if i = 70 then 100
  else if i = 71 then 101
  else if i = 72 then 102
  else if i < 117 then 110
  else if i = 117 then 90
  else if i = 118 then 101
  else 95

def W2b : List Bar := (List.range 120).map fun (i : ℕ) =>
  { date := (i : ℤ), openPrice := wClose i, high := wClose i, low := wClose i,
    close := wClose i, volume := 1000 }

/-- The structure `detect2b` finds in `W2b`. -/
def tW2b : TwoBSignal :=
  { point_a_date := 70, point_a_price := 100, point_b_date := 117,
    point_b_price := 90, recovery_price := 101, is_substantive := false,
    deduction_validated := false }

def atrBar (h l : ℚ) : Bar :=
  { date := 0, openPrice := 100, high := h, low := l, close := 100, volume := 0 }

/-- 15 bars, all closes 100: bar 1 has true range 15, bars 2..14 have true
range 1, so the mean of the last 13 true ranges is 1 while the mean of the
last 14 true ranges is 2. -/
def atrW : List Bar :=
  [atrBar 101 100, atrBar 115 100] ++ List.replicate 13 (atrBar 101 100)

/-- The §8 max-drawdown example curve [100, 120, 90, 110]. -/
def C7curve : List EquityPoint := [⟨0, 100⟩, ⟨1, 120⟩, ⟨2, 90⟩, ⟨3, 110⟩]

/-- An open position whose stop, trailing stop and target can all be breached
by one bar. -/
def c3pos : OpenPosition :=
  { signal_type := "2B_STRUCTURE", entry_date := 0, entry_price := 105,
    shares := 10, stop_loss := 100, target_price := 110,
    trailing_stop := some 95, highest_since_entry := 105 }

/-- A bar breaching stop (low 90 ≤ 100), trailing stop (90 ≤ 95) and target
(high 120 ≥ 110) simultaneously. -/
def c3bar : Bar :=
  { date := 3, openPrice := 104, high := 120, low := 90, close := 95, volume := 1 }

/-! ## Supporting lemmas -/

section

/- Batteries marks the arithmetic of `Rat` `@[irreducible]`; re-enable
unfolding locally so that `decide` can evaluate the embedded functions on the
concrete witness inputs. -/
attribute [local semireducible] Rat.mul Rat.sub Rat.inv Rat.add

theorem pyInt_eq_floor {q : ℚ} (h : 0 ≤ q) : pyInt q = ⌊q⌋ := by
  simp [pyInt, not_lt.mpr h]

/-! ## Claims -/

/-- C6 amended: for every input, shares are the Python `int` truncation of
riskAmount / perShareRisk toward zero (hence the floor whenever the risk
amount is nonnegative, e.g. for every nonnegative account value and risk
fraction), shares = 0 when the per-share risk is ≤ 0, and the §8 example
yields riskAmount 2000 and shares 400. -/
theorem C6_position_sizer_trunc (av ep sl rpt : ℚ) :
    (|ep - sl| ≤ 0 → calculate_position_size av ep sl rpt = ⟨0, 0, 0⟩) ∧
    (0 < |ep - sl| →
      (calculate_position_size av ep sl rpt).shares = pyInt (av * rpt / |ep - sl|)) ∧
    (0 < |ep - sl| → 0 ≤ av * rpt →
      (calculate_position_size av ep sl rpt).shares = ⌊av * rpt / |ep - sl|⌋) ∧
    calculate_position_size 100000 50 45 (2/100) =
      { shares := 400, risk_amount := 2000, total_cost := 20000 } := by
  refine ⟨?_, ?_, ?_, by decide⟩
  · intro h
    simp [calculate_position_size, h]
  · intro h
    simp [calculate_position_size, not_le.mpr h]
  · intro h h0
    have hd : 0 ≤ av * rpt / |ep - sl| := div_nonneg h0 (le_of_lt h)
    simp [calculate_position_size, not_le.mpr h, pyInt_eq_floor hd]

/-- C6 counterexample: with a negative account value the code truncates the
share count toward zero instead of taking the floor, so "shares =
floor(riskAmount/perShareRisk) for every accountValue" fails: at
accountValue −100, entry 50, stop 45, riskPerTrade 0.02 the code returns 0
shares while the floor is −1. -/
theorem C6_floor_counterexample :
    (calculate_position_size (-100) 50 45 (2/100)).shares ≠
      ⌊((-100 : ℚ) * (2/100)) / |(50 : ℚ) - 45|⌋ := by decide

/-- C6 witness: the amended theorem instantiated at the §8 example. -/
theorem C6_sizer_witness :
    ((0 : ℚ) < |(50 : ℚ) - 45| ∧ (0 : ℚ) ≤ (100000 : ℚ) * (2/100)) ∧
    (calculate_position_size 100000 50 45 (2/100)).shares =
      ⌊(100000 : ℚ) * (2/100) / |(50 : ℚ) - 45|⌋ :=
  ⟨⟨by norm_num, by norm_num⟩,
    (C6_position_sizer_trunc 100000 50 45 (2/100)).2.2.1 (by norm_num) (by norm_num)⟩

/-- C10: with fewer than 120 bars the signal synthesizer returns the empty
list, whatever the bars are — no signal of any type can be produced below 120
bars of history. -/
theorem C10_scan_empty_below_120 (df : List Bar) (symbol : String)
    (h : df.length < 120) : scanBuySignals df symbol = [] := by
  simp [scanBuySignals, h]

/-- C10 witness: the 40-bar sequence `C1df` (enough for the 2B detector's
30-bar minimum) still yields no signals. -/
theorem C10_witness : C1df.length < 120 ∧ scanBuySignals C1df "X" = [] :=
  ⟨by decide, C10_scan_empty_below_120 C1df "X" (by decide)⟩

/-- C8: below the minimum window every detector and the simulator produce a
"no result" value — `detect_2b` is `none` under 30 bars,
`detect_ma_concentration` is `none` under 120 bars, and the simulator returns
no trades and an empty equity curve under 120 bars; all functions are total,
so no error is ever raised. -/
theorem C8_insufficient_data (df1 df2 df3 : List Bar) (cfg : BacktestConfig)
    (symbol : String) (h1 : df1.length < 30) (h2 : df2.length < 120)
    (h3 : df3.length < 120) :
    detect2b df1 = none ∧ detectMaConcentration df2 "daily" = none ∧
    (Backtester.run cfg df3 symbol).trades = [] ∧
    (Backtester.run cfg df3 symbol).equity_curve = [] := by
  refine ⟨?_, ?_, ?_, ?_⟩
  · simp [detect2b, h1]
  · simp [detectMaConcentration, h2]
  · simp [Backtester.run, h3]
  · simp [Backtester.run, h3]

/-- C8 witness: the empty bar sequence. -/
theorem C8_witness :
    (([] : List Bar).length < 30 ∧ ([] : List Bar).length < 120) ∧
    (detect2b [] = none ∧ detectMaConcentration [] "daily" = none ∧
      (Backtester.run {} [] "S").trades = [] ∧
      (Backtester.run {} [] "S").equity_curve = []) :=
  ⟨⟨by decide, by decide⟩,
    C8_insufficient_data [] [] [] {} "S" (by decide) (by decide) (by decide)⟩

/-- C5: the simulator is a pure function of the bar sequence and the
configuration — two runs with equal configurations on the same bars produce
identical trade lists and identical equity curves (no randomness, no
wall-clock dependence exists in the model). -/
theorem C5_deterministic (cfg1 cfg2 : BacktestConfig) (df : List Bar)
    (symbol : String) (h : cfg1 = cfg2) :
    (Backtester.run cfg1 df symbol).trades = (Backtester.run cfg2 df symbol).trades ∧
    (Backtester.run cfg1 df symbol).equity_curve =
      (Backtester.run cfg2 df symbol).equity_curve := by
  subst h
  exact ⟨rfl, rfl⟩

/-- C5 witness: the default configuration run twice. -/
theorem C5_witness :
    (({} : BacktestConfig) = {}) ∧
    ((Backtester.run {} [] "A").trades = (Backtester.run {} [] "A").trades ∧
      (Backtester.run {} [] "A").equity_curve = (Backtester.run {} [] "A").equity_curve) :=
  ⟨rfl, C5_deterministic {} {} [] "A" rfl⟩

/-- C3: whenever a bar's low reaches the stop-loss, `_check_exit` records a
STOP_LOSS exit at the stop price — regardless of the trailing stop, target or
holding time, so TARGET_HIT / TRAILING_STOP is never recorded on such a bar. -/
theorem C3_stop_loss_priority (cfg : BacktestConfig) (pos : OpenPosition)
    (bar : Bar) (bar_date : ℤ) (symbol : String) (h : bar.low ≤ pos.stop_loss) :
    checkExit cfg pos bar bar_date symbol =
      some (closeTrade pos bar_date pos.stop_loss ExitReason.STOP_LOSS symbol
        (bar_date - pos.entry_date)) ∧
    ∀ t : SimulatedTrade, checkExit cfg pos bar bar_date symbol = some t →
      t.exit_reason = ExitReason.STOP_LOSS ∧ t.exit_price = round2 pos.stop_loss := by
  have he : checkExit cfg pos bar bar_date symbol =
      some (closeTrade pos bar_date pos.stop_loss ExitReason.STOP_LOSS symbol
        (bar_date - pos.entry_date)) := by
    simp [checkExit, h]
  refine ⟨he, ?_⟩
  intro t ht
  rw [he] at ht
  have := Option.some.inj ht
  subst this
  exact ⟨rfl, rfl⟩

/-- C3 witness: a bar breaching stop, trailing stop and target at once still
exits STOP_LOSS at the stop price. -/
theorem C3_witness :
    (c3bar.low ≤ c3pos.stop_loss ∧ c3bar.low ≤ c3pos.trailing_stop.getD 0 ∧
      c3pos.target_price ≤ c3bar.high) ∧
    (checkExit {} c3pos c3bar 3 "S" =
        some (closeTrade c3pos 3 c3pos.stop_loss ExitReason.STOP_LOSS "S"
          (3 - c3pos.entry_date)) ∧
      ∀ t : SimulatedTrade, checkExit {} c3pos c3bar 3 "S" = some t →
        t.exit_reason = ExitReason.STOP_LOSS ∧ t.exit_price = round2 c3pos.stop_loss) :=
  ⟨⟨by decide, by decide, by decide⟩,
    C3_stop_loss_priority {} c3pos c3bar 3 "S" (by decide)⟩

theorem pySlice_stop_zero {α : Type} (xs : List α) (a : ℤ) : pySlice xs a 0 = [] := by
  simp [pySlice, pyResolve]

set_option maxRecDepth 40000 in
/-- C1: `predict_ma_turn` with period = 20 and lookahead = 20 slices
`close.iloc[-20:0]`, the empty slice, so it returns `will_turn_up = false`
(and no required price) for EVERY bar sequence; yet on the 40 increasing
closes of `C1df` the claim's own condition — last close above the minimum of
the window positioned 20 bars back spanning 20 bars forward, i.e. the last 20
closes — holds, so the claim demands `will_turn_up = true` there. -/
theorem C1_ma_turn_period20_dead :
    (∀ df : List Bar, (predictMaTurn df 20 20).will_turn_up = false) ∧
    (predictMaTurn C1df 20 20).required_price = none ∧
    listMin (lastN 20 (C1df.map Bar.close)) < (C1df.map Bar.close).getLast?.getD 0 := by
  refine ⟨?_, by decide, by decide⟩
  intro df
  have hsl : pySlice (df.map Bar.close) (-20 : ℤ) 0 = [] := pySlice_stop_zero _ _
  by_cases h : df.length < 40
  · simp [predictMaTurn, h]
  · simp [predictMaTurn, h, hsl]

theorem lastN_length {α : Type} (k : ℕ) (xs : List α) :
    (lastN k xs).length = min k xs.length := by
  rw [lastN, List.length_drop, Nat.sub_sub_eq_min, Nat.min_comm]

theorem trueRangeList_length (bars : List Bar) :
    (trueRangeList bars).length = bars.length - 1 := by
  simp [trueRangeList]

/-- The 13 true ranges computed inside the 14-bar tail coincide with the last
13 true ranges of the whole history (the previous close of the oldest in-tail
true range lies inside the tail). -/
theorem trueRangeList_lastN (bars : List Bar) (h : 14 ≤ bars.length) :
    trueRangeList (lastN 14 bars) = lastN 13 (trueRangeList bars) := by
  unfold trueRangeList lastN
  rw [List.drop_drop, List.drop_zipWith, List.drop_drop]
  simp only [List.length_zipWith, List.length_drop]
  congr 2 <;> omega

/-- C2 amended: when `stopLossAtrMult` is truthy the recomputed stop is
entry − ATR×mult rounded to 2 decimals, where ATR is the arithmetic mean of
the 13 true ranges formed from the trailing 14 bars — equivalently the last
13 true-range values of the history (`TR = max(high−low, |high−prevClose|,
|low−prevClose|)`), not 14 of them. -/
theorem C2_atr_stop_uses_13_trs (bars : List Bar) (entry mult ds : ℚ)
    (h : 14 ≤ bars.length) :
    atrStopLoss bars entry mult ds =
      round2 (entry - listMean (lastN 13 (trueRangeList bars)) * mult) := by
  have htr := trueRangeList_lastN bars h
  have hne : lastN 13 (trueRangeList bars) ≠ [] := by
    have hlen : (lastN 13 (trueRangeList bars)).length = 13 := by
      rw [lastN_length, trueRangeList_length]
      omega
    intro hcon
    rw [hcon] at hlen
    simp at hlen
  unfold atrStopLoss
  rw [htr]
  simp [hne, listMean]

/-- C2 counterexample: on the 15-bar window `atrW` the code's recomputed stop
(mean of 13 true ranges) differs from entry − mult × (mean of the last 14
true ranges) demanded by the claim: 98 versus 96. -/
theorem C2_atr14_counterexample :
    atrStopLoss atrW 100 2 0 ≠ 100 - 2 * listMean (lastN 14 (trueRangeList atrW)) := by
  decide

/-- C2 witness: the amended statement evaluated on `atrW`. -/
theorem C2_witness :
    14 ≤ atrW.length ∧
    atrStopLoss atrW 100 2 0 =
      round2 (100 - listMean (lastN 13 (trueRangeList atrW)) * 2) :=
  ⟨by decide, C2_atr_stop_uses_13_trs atrW 100 2 0 (by decide)⟩

/-- Supporting: the position built by `_try_entry` carries exactly the
ATR-recomputed stop whenever `stopLossAtrMult` is truthy (for some fallback
stop, namely the chosen signal's own stop). -/
theorem tryEntryAux_stop_is_atr (cfg : BacktestConfig) (window : List Bar)
    (ed : ℤ) (sym : String) (cap : ℚ) (pos : OpenPosition)
    (hm : truthy cfg.stop_loss_atr_mult = true)
    (h : tryEntryAux cfg window ed sym cap = some pos) :
    ∃ s : ℚ, pos.stop_loss =
      atrStopLoss window pos.entry_price (cfg.stop_loss_atr_mult.getD 0) s := by
  unfold tryEntryAux at h
  simp only [hm, if_true] at h
  repeat' split at h
  all_goals
    first
      | (have h2 := Option.some.inj h
         subst h2
         exact ⟨_, rfl⟩)
      | exact Option.noConfusion h

theorem getD_eq_of_take_eq {α : Type} (l1 l2 : List α) (n : ℕ) (d : α)
    (h : l1.take (n + 1) = l2.take (n + 1)) : l1.getD n d = l2.getD n d := by
  rw [List.getD_eq_getElem?_getD, List.getD_eq_getElem?_getD,
    ← List.getElem?_take_of_succ (l := l1), ← List.getElem?_take_of_succ (l := l2), h]

/-- C4: the entry decision at bar index `idx` is a function of the prefix
`df[0..idx]` alone — two histories agreeing up to and including `idx` produce
the same evaluated signal list and the same entry decision, however they
differ afterwards (no look-ahead). -/
theorem C4_no_lookahead (cfg : BacktestConfig) (df1 df2 : List Bar) (idx : ℕ)
    (symbol : String) (capital : ℚ)
    (h : df1.take (idx + 1) = df2.take (idx + 1)) :
    scanBuySignals (df1.take (idx + 1)) symbol =
      scanBuySignals (df2.take (idx + 1)) symbol ∧
    tryEntry cfg df1 idx symbol capital = tryEntry cfg df2 idx symbol capital := by
  have hg : df1.getD idx dummyBar = df2.getD idx dummyBar :=
    getD_eq_of_take_eq df1 df2 idx dummyBar h
  constructor
  · rw [h]
  · unfold tryEntry
    rw [h, hg]

/-- C4 witness: two 2-vs-3 bar histories agreeing on indices 0..1. -/
theorem C4_witness :
    ([dummyBar, dummyBar] : List Bar).take 2 =
      ([dummyBar, dummyBar, atrBar 101 100] : List Bar).take 2 ∧
    (scanBuySignals (([dummyBar, dummyBar] : List Bar).take 2) "W" =
        scanBuySignals (([dummyBar, dummyBar, atrBar 101 100] : List Bar).take 2) "W" ∧
      tryEntry {} [dummyBar, dummyBar] 1 "W" 100000 =
        tryEntry {} [dummyBar, dummyBar, atrBar 101 100] 1 "W" 100000) :=
  ⟨by decide, C4_no_lookahead {} [dummyBar, dummyBar]
    [dummyBar, dummyBar, atrBar 101 100] 1 "W" 100000 (by decide)⟩

/-- Invariant of the `_max_drawdown` fold: every per-point drawdown is
bounded by the tracked maximum; the tracked maximum only grows; and the final
(max, pct) pair is either the initial one or the (drawdown, pct) pair of some
processed point. -/
theorem mddFold_invariant (r : List ℚ) : ∀ (peak m mp : ℚ),
    (∀ x ∈ ddAnnots peak r, x.1 ≤ (r.foldl mddStep (peak, m, mp)).2.1) ∧
    m ≤ (r.foldl mddStep (peak, m, mp)).2.1 ∧
    (((r.foldl mddStep (peak, m, mp)).2.1 = m ∧
        (r.foldl mddStep (peak, m, mp)).2.2 = mp) ∨
      ∃ x ∈ ddAnnots peak r, (r.foldl mddStep (peak, m, mp)).2.1 = x.1 ∧
        (r.foldl mddStep (peak, m, mp)).2.2 = x.2) := by
  induction r with
  | nil =>
    intro peak m mp
    simp [ddAnnots]
  | cons e t ih =>
    intro peak m mp
    have hstep : mddStep (peak, m, mp) e =
        if m < (if peak < e then e else peak) - e then
          ((if peak < e then e else peak), (if peak < e then e else peak) - e,
            if 0 < (if peak < e then e else peak) then
              ((if peak < e then e else peak) - e) / (if peak < e then e else peak)
            else 0)
        else ((if peak < e then e else peak), m, mp) := rfl
    have hann : ddAnnots peak (e :: t) =
        ((if peak < e then e else peak) - e,
          if 0 < (if peak < e then e else peak) then
            ((if peak < e then e else peak) - e) / (if peak < e then e else peak)
          else 0) :: ddAnnots (if peak < e then e else peak) t := rfl
    simp only [List.foldl_cons, hstep, hann]
    by_cases hd : m < (if peak < e then e else peak) - e
    · rw [if_pos hd]
      obtain ⟨iha, ihm, ihc⟩ := ih (if peak < e then e else peak)
        ((if peak < e then e else peak) - e)
        (if 0 < (if peak < e then e else peak) then
          ((if peak < e then e else peak) - e) / (if peak < e then e else peak)
        else 0)
      refine ⟨?_, le_trans (le_of_lt hd) ihm, ?_⟩
      · intro x hx
        rcases List.mem_cons.mp hx with hx | hx
        · subst hx
          exact ihm
        · exact iha x hx
      · rcases ihc with ⟨h1, h2⟩ | ⟨x, hx, h1, h2⟩
        · exact Or.inr ⟨_, List.mem_cons_self _ _, h1, h2⟩
        · exact Or.inr ⟨x, List.mem_cons_of_mem _ hx, h1, h2⟩
    · rw [if_neg hd]
      obtain ⟨iha, ihm, ihc⟩ := ih (if peak < e then e else peak) m mp
      refine ⟨?_, ihm, ?_⟩
      · intro x hx
        rcases List.mem_cons.mp hx with hx | hx
        · subst hx
          exact le_trans (not_lt.mp hd) ihm
        · exact iha x hx
      · rcases ihc with ⟨h1, h2⟩ | ⟨x, hx, h1, h2⟩
        · exact Or.inl ⟨h1, h2⟩
        · exact Or.inr ⟨x, List.mem_cons_of_mem _ hx, h1, h2⟩

/-- C7: `_max_drawdown` returns the largest running-peak drawdown over the
curve together with 100× the fractional drawdown of the peak at that worst
point, and evaluates to (30, 25) on the §8 example [100, 120, 90, 110]. -/
theorem C7_max_drawdown :
    (∀ (curve : List EquityPoint) (c0 : EquityPoint) (rest : List EquityPoint),
        curve = c0 :: rest →
        (∀ x ∈ ddAnnots c0.equity (curve.map EquityPoint.equity),
            x.1 ≤ (maxDrawdown curve).1) ∧
        ∃ x ∈ ddAnnots c0.equity (curve.map EquityPoint.equity),
          (maxDrawdown curve).1 = x.1 ∧ (maxDrawdown curve).2 = x.2 * 100) ∧
    maxDrawdown C7curve = (30, 25) := by
  constructor
  · intro curve c0 rest hc
    subst hc
    obtain ⟨ha, hm, hc⟩ :=
      mddFold_invariant ((c0 :: rest).map EquityPoint.equity) c0.equity 0 0
    have hres : maxDrawdown (c0 :: rest) =
        ((((c0 :: rest).map EquityPoint.equity).foldl mddStep (c0.equity, 0, 0)).2.1,
          (((c0 :: rest).map EquityPoint.equity).foldl mddStep (c0.equity, 0, 0)).2.2 * 100) :=
      rfl
    rw [hres]
    refine ⟨ha, ?_⟩
    rcases hc with ⟨h1, h2⟩ | ⟨x, hx, h1, h2⟩
    · refine ⟨(c0.equity - c0.equity,
        if 0 < c0.equity then (c0.equity - c0.equity) / c0.equity else 0), ?_, ?_, ?_⟩
      · have : ddAnnots c0.equity ((c0 :: rest).map EquityPoint.equity) =
            (c0.equity - c0.equity,
              if 0 < c0.equity then (c0.equity - c0.equity) / c0.equity else 0) ::
              ddAnnots c0.equity (rest.map EquityPoint.equity) := by
          simp [ddAnnots]
        rw [this]
        exact List.mem_cons_self _ _
      · rw [h1, sub_self]
      · rw [h2]
        simp [sub_self]
    · exact ⟨x, hx, h1, by rw [h2]⟩
  · decide

/-- C7 witness: the general statement applied to the §8 example curve. -/
theorem C7_witness :
    (C7curve = ({ date := 0, equity := 100 } : EquityPoint) ::
        [{ date := 1, equity := 120 }, { date := 2, equity := 90 },
          { date := 3, equity := 110 }]) ∧
    ((∀ x ∈ ddAnnots (100 : ℚ) (C7curve.map EquityPoint.equity),
        x.1 ≤ (maxDrawdown C7curve).1) ∧
      ∃ x ∈ ddAnnots (100 : ℚ) (C7curve.map EquityPoint.equity),
        (maxDrawdown C7curve).1 = x.1 ∧ (maxDrawdown C7curve).2 = x.2 * 100) :=
  ⟨rfl, C7_max_drawdown.1 C7curve { date := 0, equity := 100 }
    [{ date := 1, equity := 120 }, { date := 2, equity := 90 },
      { date := 3, equity := 110 }] rfl⟩

theorem mem_concBlock_type (df : List Bar) (lp : ℚ) :
    ∀ s ∈ concBlock df lp, s.signal_type = "MA_CONCENTRATION_BREAKOUT" := by
  intro s hs
  unfold concBlock at hs
  repeat' split at hs
  all_goals simp_all

theorem mem_turnBlock_type (df : List Bar) (lp : ℚ) (m60 : Option ℚ) :
    ∀ s ∈ turnBlock df lp m60, s.signal_type = "MA_TURN_UP" := by
  intro s hs
  unfold turnBlock at hs
  repeat' split at hs
  all_goals simp_all

theorem twoBBlock_nil_of_not_substantive (df : List Bar) (lp : ℚ)
    (m60 : Option ℚ) (t : TwoBSignal) (h1 : detect2b df = some t)
    (h2 : t.is_substantive = false) : twoBBlock df lp m60 = [] := by
  unfold twoBBlock
  rw [h1]
  simp [h2]

/-- C9: the synthesizer emits a 2B_STRUCTURE signal only for substantive
structures — when `detect_2b` finds a structure with `is_substantive = false`
no 2B signal appears in the scan output (whatever the risk/reward numbers),
since the other two branches only emit MA_CONCENTRATION_BREAKOUT and
MA_TURN_UP signals. -/
theorem C9_no_2b_signal_when_not_substantive (df : List Bar) (symbol : String)
    (t : TwoBSignal) (h1 : detect2b df = some t) (h2 : t.is_substantive = false) :
    ∀ s ∈ scanBuySignals df symbol, s.signal_type ≠ "2B_STRUCTURE" := by
  intro s hs
  unfold scanBuySignals at hs
  split at hs
  · simp at hs
  · simp only [twoBBlock_nil_of_not_substantive df _ _ t h1 h2, List.nil_append,
      List.mem_append] at hs
    rcases hs with hs | hs
    · rw [mem_concBlock_type df _ s hs]
      decide
    · rw [mem_turnBlock_type df _ _ s hs]
      decide

set_option maxRecDepth 200000 in
/-- C9 witness: on `W2b` the detector returns a non-substantive structure
(one post-B close above point A) and the scan contains no 2B signal. -/
theorem C9_witness :
    (detect2b W2b = some tW2b ∧ tW2b.is_substantive = false) ∧
    ∀ s ∈ scanBuySignals W2b "T", s.signal_type ≠ "2B_STRUCTURE" := by
  have hd : detect2b W2b = some tW2b := by decide
  exact ⟨⟨hd, rfl⟩, C9_no_2b_signal_when_not_substantive W2b "T" tW2b hd rfl⟩

end

end LiuTrade
